import Mathlib

/-!
Shallow embedding of the contact/address-book manager in `src/main.py`
(classes `Field`, `Name`, `Phone`, `Birthday`, `Record`, `AddressBook`),
together with proofs about the embedded operations.

Modelling conventions:
* Python exceptions become `Except PyErr`; an operation that may both
  raise and mutate returns the raised-or-ok flag together with the final
  state (`Except PyErr Unit × State`), since a raised Python exception
  leaves already-performed mutations in place.
* Python strings are Lean `String`s (both are sequences of Unicode code
  points; `len` is `String.length`).
* `datetime` / `date` objects are modelled by the `PyVal` constructors
  `pydatetime` / `pydate` carrying (year, month, day); the reference code
  never gives them a time of day other than midnight.
* Library functions (`str.isdigit`, `str.lower`, `in`, `str.join`,
  `pickle`, `datetime` arithmetic) are modelled by Lean functions whose
  behaviour matches the Python library on the fragment exercised here;
  each carries a comment saying exactly what is modelled.
-/

deriving instance DecidableEq for Except

/-- Python exception values, carrying the exception class and message. -/
inductive PyErr where
  | valueError (msg : String)
  | typeError (msg : String)
  | attributeError (msg : String)
  | invalidArgument (msg : String)
deriving DecidableEq, Repr

/-- Python values that can be stored in a `Birthday` field in this program:
`None`, a string, a `datetime.date`, or a `datetime.datetime` (midnight). -/
inductive PyVal where
  | none
  | str (s : String)
  | pydate (year month day : Nat)
  | pydatetime (year month day : Nat)
deriving DecidableEq, Repr

/-- Character predicate of Python's `str.isdigit`, modelled on the fragment
of Unicode relevant to this development: the ASCII digits `0`–`9`, the
Arabic-Indic digits U+0660–U+0669, and the superscript digits U+00B2,
U+00B3, U+00B9.  Python's `str.isdigit` accepts every character with
Unicode property `Numeric_Type = Digit` or `Decimal`; in particular it
accepts the non-ASCII characters listed here, which is what matters for
the claims below.  Characters outside this fragment never occur in any
statement of this file. -/
def pyIsDigitChar (c : Char) : Bool :=
  (decide ('0' ≤ c) && decide (c ≤ '9'))
    || (decide (0x660 ≤ c.toNat) && decide (c.toNat ≤ 0x669))
    || (c.toNat == 0xB2) || (c.toNat == 0xB3) || (c.toNat == 0xB9)

/-- Python `s.isdigit()`: true iff `s` is nonempty and every character is a
digit (see `pyIsDigitChar`). -/
def pyIsDigit (s : String) : Bool :=
  !s.data.isEmpty && s.data.all pyIsDigitChar

/-- Python `s.lower()`, modelled on the ASCII fragment: uppercase ASCII
letters are shifted to lowercase, every other character is unchanged. -/
def pyLowerChar (c : Char) : Char :=
  if 'A' ≤ c ∧ c ≤ 'Z' then Char.ofNat (c.toNat + 32) else c

/-- Python `s.lower()` on a whole string (ASCII fragment). -/
def pyLower (s : String) : String :=
  String.mk (s.data.map pyLowerChar)

/-- Contiguous-sublist test on character lists: `strInChars needle hay`
holds iff `needle` occurs contiguously inside `hay`. -/
def strInChars (needle : List Char) : List Char → Bool
  | [] => needle.isEmpty
  | c :: cs => needle.isPrefixOf (c :: cs) || strInChars needle cs

/-- Python's substring test `needle in hay` on strings. -/
def strIn (needle hay : String) : Bool :=
  strInChars needle.data hay.data

/-- Python `sep.join(parts)`: empty for an empty list, otherwise the first
part followed by `sep ++ part` for each further part. -/
def pyJoin (sep : String) : List String → String
  | [] => ""
  | s :: rest => rest.foldl (fun acc p => acc ++ sep ++ p) s

/-- Left-pad a decimal rendering with zeros to the given width, as Python's
`datetime.__str__` does for its components. -/
def padZeros (width n : Nat) : String :=
  let s := toString n
  String.mk (List.replicate (width - s.length) '0') ++ s

/-- Python `str(v)` for the values storable in a `Birthday` field:
`str(None) = "None"`, strings render as themselves, `datetime.date`
renders as `YYYY-MM-DD`, and `datetime.datetime` at midnight renders as
`YYYY-MM-DD 00:00:00`. -/
def pyStr (v : PyVal) : String :=
  match v with
  | .none => "None"
  | .str s => s
  | .pydate y m d => padZeros 4 y ++ "-" ++ padZeros 2 m ++ "-" ++ padZeros 2 d
  | .pydatetime y m d =>
      padZeros 4 y ++ "-" ++ padZeros 2 m ++ "-" ++ padZeros 2 d ++ " 00:00:00"

/-- Embedding of `Phone.validate_phone` (src/main.py lines 32-34): the
candidate (here always a string, so the `isinstance` test passes) must
have length exactly 10 and satisfy `str.isdigit`; the function raises
`ValueError` otherwise, which this Bool reports as `false`. -/
def validate_phone (value : String) : Bool :=
  value.length == 10 && pyIsDigit value

/-- Embedding of the `Phone.__init__` constructor (src/main.py lines 28-30):
validate, then store the value unchanged (storage happens through
`Field.__init__`, a direct attribute write). -/
def Phone.init (value : String) : Except PyErr String :=
  if validate_phone value then .ok value
  else .error (.valueError "Phone number must contain exactly 10 digits.")

/-- Embedding of the `Phone.value` property setter (src/main.py lines
36-39).  The Python code runs `self.validate_phone(new_value)` and then
`super().value(new_value)`.  The attribute access `super().value` invokes
the getter of the inherited property `Field.value`, which returns the
currently stored value — a `str` — and the call `(...)(new_value)` then
raises `TypeError("'str' object is not callable")`.  So an invalid
candidate raises `ValueError` and a valid candidate raises `TypeError`;
in both cases the stored value is unchanged.  The result pairs the raised
exception with the (unchanged) stored value. -/
def Phone.setValue (current : String) (newValue : String) : Except PyErr Unit × String :=
  if validate_phone newValue then
    (.error (.typeError "'str' object is not callable"), current)
  else
    (.error (.valueError "Phone number must contain exactly 10 digits."), current)

/-- Embedding of `Birthday.validate_date` (src/main.py lines 47-49): the
value must be `None` or an `isinstance` of `datetime.datetime`.  Strings
and `datetime.date` objects are rejected. -/
def validate_date (value : PyVal) : Bool :=
  match value with
  | .none => true
  | .pydatetime _ _ _ => true
  | _ => false

/-- Embedding of the `Birthday.__init__` constructor (src/main.py lines
43-45): validate, then store the value unchanged. -/
def Birthday.init (value : PyVal) : Except PyErr PyVal :=
  if validate_date value then .ok value
  else .error (.valueError "Birthday must be a datetime object.")

/-- Embedding of `Record` (src/main.py lines 57-61): a name, an ordered
list of phones (each phone object is determined by its validated string
value, so it is stored as that string), and the value held by the
`Birthday` field. -/
structure Record where
  name : String
  phones : List String
  birthday : PyVal
deriving DecidableEq, Repr

/-- Embedding of `Record.find_phone` (src/main.py lines 75-76): first phone
whose string rendering equals the argument's, else `None`. -/
def Record.find_phone (r : Record) (phone : String) : Option String :=
  r.phones.find? (fun p => p == phone)

/-- Embedding of `Record.remove_phone` (src/main.py lines 66-67): keep the
phones whose string rendering differs from the argument's. -/
def Record.remove_phone (r : Record) (phone : String) : Record :=
  { r with phones := r.phones.filter (fun p => !(p == phone)) }

/-- Embedding of `Record.add_phone` (src/main.py lines 63-64): construct a
`Phone` (raising `ValueError` on invalid input, in which case nothing is
appended) and append it. -/
def Record.add_phone (r : Record) (phone : String) : Except PyErr Record :=
  match Phone.init phone with
  | .ok v => .ok { r with phones := r.phones ++ [v] }
  | .error e => .error e

/-- Embedding of `Record.edit_phone` (src/main.py lines 69-73): raise
`ValueError` if no phone matches `old_phone`; otherwise remove all
matches of `old_phone` and then try to add `new_phone`.  The removal is
performed before the add, so if `new_phone` is invalid the raised
`ValueError` leaves the record with the old phone already removed.  The
result pairs the outcome with the final record state. -/
def Record.edit_phone (r : Record) (old_phone new_phone : String) :
    Except PyErr Unit × Record :=
  if (r.find_phone old_phone).isNone then
    (.error (.valueError "Old phone number not found."), r)
  else
    let r1 := r.remove_phone old_phone
    match r1.add_phone new_phone with
    | .ok r2 => (.ok (), r2)
    | .error e => (.error e, r1)

/-- Embedding of `Record.__str__` (src/main.py lines 87-88): the f-string
`"Contact name: ..., phones: ..., birthday: ..."` with the phones joined
by `"; "` and the birthday rendered with `str`. -/
def Record.toStr (r : Record) : String :=
  "Contact name: " ++ r.name ++ ", phones: " ++ pyJoin "; " r.phones
    ++ ", birthday: " ++ pyStr r.birthday

/-- Proleptic Gregorian calendar date, as carried by Python's
`datetime.date`. -/
structure Date where
  y : Nat
  m : Nat
  d : Nat
deriving DecidableEq, Repr

/-- Leap-year test of Python's `calendar` / `datetime` modules:
divisible by 4, and not by 100 unless also by 400. -/
def isLeap (y : Nat) : Bool :=
  y % 4 == 0 && (y % 100 != 0 || y % 400 == 0)

/-- Number of days in a month of the Gregorian calendar, as used by
Python's `datetime`. -/
def daysInMonth (y m : Nat) : Nat :=
  if m == 2 then (if isLeap y then 29 else 28)
  else if m == 4 || m == 6 || m == 9 || m == 11 then 30
  else 31

/-- Number of days in a Gregorian year. -/
def daysInYear (y : Nat) : Nat :=
  if isLeap y then 366 else 365

/-- Validity predicate of Python's `datetime.date(y, m, d)` constructor:
year in `1..9999` (`MINYEAR..MAXYEAR`), month in `1..12`, day in
`1..daysInMonth`. -/
def isValidDate (y m d : Nat) : Prop :=
  1 ≤ y ∧ y ≤ 9999 ∧ 1 ≤ m ∧ m ≤ 12 ∧ 1 ≤ d ∧ d ≤ daysInMonth y m

instance (y m d : Nat) : Decidable (isValidDate y m d) := by
  unfold isValidDate
  exact inferInstance

/-- Total number of days in the months `1..m` of year `y`. -/
def cumDays (y : Nat) : Nat → Nat
  | 0 => 0
  | m + 1 => cumDays y m + daysInMonth y (m + 1)

/-- Total number of days in the years `1..y`. -/
def daysUpToYear : Nat → Nat
  | 0 => 0
  | y + 1 => daysUpToYear y + daysInYear (y + 1)

/-- Ordinal of a date: days from the epoch, with `0001-01-01` mapping to 1,
the semantics of Python's `date.toordinal`; the difference of two
ordinals is the `days` of the `timedelta` between the two dates. -/
def toOrdinal (a : Date) : Nat :=
  daysUpToYear (a.y - 1) + cumDays a.y (a.m - 1) + a.d

/-- Python's `date.__lt__`: lexicographic comparison of (year, month, day),
which on valid dates agrees with ordinal comparison. -/
def dateLt (a b : Date) : Prop :=
  a.y < b.y ∨ (a.y = b.y ∧ (a.m < b.m ∨ (a.m = b.m ∧ a.d < b.d)))

instance (a b : Date) : Decidable (dateLt a b) := by
  unfold dateLt
  exact inferInstance

/-- Python's `date.__le__` on dates. -/
def dateLe (a b : Date) : Prop :=
  dateLt a b ∨ a = b

instance (a b : Date) : Decidable (dateLe a b) := by
  unfold dateLe
  exact inferInstance

/-- Embedding of Python's `datetime(y, m, d)` constructor followed by
`.date()`: yields the date if its components are valid and raises
`ValueError` otherwise (as it does for Feb 29 of a non-leap year, or a
year outside `1..9999`). -/
def Date.build (y m d : Nat) : Except PyErr Date :=
  if isValidDate y m d then .ok ⟨y, m, d⟩
  else .error (.valueError "day is out of range for month")

/-- Embedding of the body of `Record.days_to_birthday` (src/main.py lines
78-85) for a set birthday with month `bm` and day `bd`: construct this
year's occurrence (raising `ValueError` if that date does not exist), use
next year's occurrence instead when this year's is strictly before
`today` (again raising `ValueError` if it does not exist), and return the
signed day difference. -/
def days_to_birthday_of (today : Date) (bm bd : Nat) : Except PyErr Int :=
  match Date.build today.y bm bd with
  | .error e => .error e
  | .ok nb =>
    if dateLt nb today then
      match Date.build (today.y + 1) bm bd with
      | .error e => .error e
      | .ok nb2 => .ok ((toOrdinal nb2 : Int) - (toOrdinal today : Int))
    else .ok ((toOrdinal nb : Int) - (toOrdinal today : Int))

/-- Embedding of `Record.days_to_birthday` (src/main.py lines 78-85).
`if self.birthday.value:` takes the truthiness of the stored value:
`None` and the empty string are falsy (the method returns `None`), a
nonempty string is truthy but has no `.month` attribute
(`AttributeError`), and date/datetime values are truthy and carry
`.month` / `.day`. -/
def Record.days_to_birthday (r : Record) (today : Date) : Except PyErr (Option Int) :=
  match r.birthday with
  | .pydatetime _ bm bd => (days_to_birthday_of today bm bd).map some
  | .pydate _ bm bd => (days_to_birthday_of today bm bd).map some
  | .none => .ok Option.none
  | .str s =>
      if s == "" then .ok Option.none
      else .error (.attributeError "'str' object has no attribute 'month'")

/-- Persistent storage: a map from file path to the pickled snapshot of an
address book's record mapping, `Option.none` when no file exists at the
path.  `pickle.dump` / `pickle.load` round-trip the mapping losslessly
(names, phone lists, birthdays, and insertion order are all preserved by
pickling a `dict` of `Record`s), so the snapshot is modelled as the
mapping itself. -/
def FS : Type :=
  String → Option (List (String × Record))

/-- Embedding of `AddressBook` (src/main.py lines 91-94): a `UserDict`
keyed by record name — modelled as an insertion-ordered association
list, Python dicts being insertion-ordered — plus the filename it
persists to. -/
structure AddressBook where
  filename : String
  data : List (String × Record)
deriving DecidableEq, Repr

/-- Embedding of `AddressBook.load` (src/main.py lines 96-101): replace
`self.data` with the unpickled snapshot, or with `{}` when the file does
not exist (`FileNotFoundError`). -/
def AddressBook.load (fs : FS) (b : AddressBook) : AddressBook :=
  { b with data := (fs b.filename).getD [] }

/-- Embedding of `AddressBook.save` (src/main.py lines 103-105): overwrite
the file at `self.filename` with the pickled snapshot of `self.data`. -/
def AddressBook.save (fs : FS) (b : AddressBook) : FS :=
  fun p => if p = b.filename then some b.data else fs p

/-- Embedding of `AddressBook.__init__` (src/main.py lines 92-94): store
the filename and immediately `load`. -/
def AddressBook.init (fs : FS) (filename : String) : AddressBook :=
  AddressBook.load fs { filename := filename, data := [] }

/-- Embedding of `AddressBook.__enter__` (src/main.py lines 128-130):
`self.load()` and return `self`. -/
def AddressBook.enter (fs : FS) (b : AddressBook) : AddressBook :=
  AddressBook.load fs b

/-- Assignment `data[k] = v` on an insertion-ordered Python dict: replace
in place when the key is present, append otherwise. -/
def dictSet (data : List (String × Record)) (k : String) (v : Record) :
    List (String × Record) :=
  if data.any (fun kv => kv.1 == k) then
    data.map (fun kv => if kv.1 == k then (k, v) else kv)
  else data ++ [(k, v)]

/-- Embedding of `AddressBook.add_record` (src/main.py lines 107-108). -/
def AddressBook.add_record (b : AddressBook) (r : Record) : AddressBook :=
  { b with data := dictSet b.data r.name r }

/-- Name test of `AddressBook.search` (src/main.py line 117):
`query.lower() in record.name.value.lower()`. -/
def nameMatches (query : String) (r : Record) : Bool :=
  strIn (pyLower query) (pyLower r.name)

/-- Phone test of `AddressBook.search` (src/main.py lines 119-122): some
phone of the record contains `query` as a substring (the loop breaks at
the first hit, so at most one append happens for the phones). -/
def phoneMatches (query : String) (r : Record) : Bool :=
  r.phones.any (fun p => strIn query p)

/-- Loop body of `AddressBook.search` (src/main.py lines 116-122) for one
record: append the record when its name matches, and append it (again)
when one of its phones matches.  There is no deduplication between the
two appends. -/
def searchStep (query : String) (acc : List Record) (r : Record) : List Record :=
  let acc1 := if nameMatches query r then acc ++ [r] else acc
  if phoneMatches query r then acc1 ++ [r] else acc1

/-- Embedding of `AddressBook.search` (src/main.py lines 114-123): fold the
loop body over `self.values()` in collection order. -/
def AddressBook.search (b : AddressBook) (query : String) : List Record :=
  (b.data.map Prod.snd).foldl (searchStep query) []

/-- Split a list into consecutive chunks of `k` elements, the last chunk
possibly shorter; empty output for `k = 0`. -/
def chunkList (k : Nat) : List α → List (List α)
  | [] => []
  | x :: xs =>
    if _h : k = 0 then []
    else (x :: xs).take k :: chunkList k ((x :: xs).drop k)
termination_by l => l.length
decreasing_by
  simp [List.length_drop]
  omega

/-- Modelled from the spec: `src/main.py` has no paged-iteration operation
on `AddressBook` (no such method exists anywhere in the file), so
`pagedIterate` follows §4.5 of the spec verbatim: pages of up to
`pageSize` records covering all records exactly once in collection
order, the final page possibly shorter; a non-positive `pageSize` fails
with `InvalidArgument`. -/
def pagedIterate (b : AddressBook) (pageSize : Int) :
    Except PyErr (List (List Record)) :=
  if pageSize ≤ 0 then
    .error (.invalidArgument "page size must be a positive integer")
  else .ok (chunkList pageSize.toNat (b.data.map Prod.snd))

/-- Modelled from the spec: `pagedIterate` with the documented default page
size of 10 when the caller does not pass one. -/
def pagedIterateDefault (b : AddressBook) : Except PyErr (List (List Record)) :=
  pagedIterate b 10

/-- Semicolon-separated join written by direct recursion, used to state the
record rendering format independently of the fold inside `pyJoin`. -/
def joinSemi : List String → String
  | [] => ""
  | [p] => p
  | p :: q :: ps => p ++ "; " ++ joinSemi (q :: ps)

lemma joinSemi_cons_append (s q : String) (t : List String) :
    joinSemi ((s ++ "; " ++ q) :: t) = s ++ "; " ++ joinSemi (q :: t) := by
  cases t with
  | nil => rfl
  | cons r t => simp [joinSemi, String.append_assoc]

lemma foldl_join_eq_joinSemi (t : List String) : ∀ s : String,
    t.foldl (fun acc p => acc ++ "; " ++ p) s = joinSemi (s :: t) := by
  induction t with
  | nil => intro s; rfl
  | cons q t ih =>
    intro s
    rw [List.foldl_cons, ih (s ++ "; " ++ q), joinSemi_cons_append]
    rfl

lemma pyJoin_eq_joinSemi (l : List String) : pyJoin "; " l = joinSemi l := by
  cases l with
  | nil => rfl
  | cons s t => exact foldl_join_eq_joinSemi t s

lemma searchStep_append (q : String) (acc : List Record) (r : Record) :
    searchStep q acc r = acc ++ searchStep q [] r := by
  unfold searchStep
  by_cases h1 : nameMatches q r <;> by_cases h2 : phoneMatches q r <;>
    simp [h1, h2]

lemma foldl_searchStep_acc (q : String) : ∀ (l : List Record) (acc : List Record),
    l.foldl (searchStep q) acc = acc ++ l.foldl (searchStep q) [] := by
  intro l
  induction l with
  | nil => intro acc; simp
  | cons r l ih =>
    intro acc
    simp only [List.foldl_cons]
    rw [ih (searchStep q acc r), ih (searchStep q [] r), searchStep_append]
    simp [List.append_assoc]

lemma chunkList_nil (k : Nat) : chunkList k ([] : List α) = [] := by
  rw [chunkList]

lemma chunkList_cons (k : Nat) (hk : k ≠ 0) (x : α) (xs : List α) :
    chunkList k (x :: xs) =
      (x :: xs).take k :: chunkList k ((x :: xs).drop k) := by
  rw [chunkList]
  simp [hk]

lemma chunkList_join_aux (k : Nat) (hk : k ≠ 0) :
    ∀ (n : Nat) (l : List α), l.length ≤ n → (chunkList k l).flatten = l := by
  intro n
  induction n with
  | zero =>
    intro l hl
    have hnil : l = [] := List.length_eq_zero.mp (Nat.le_zero.mp hl)
    subst hnil
    rw [chunkList_nil]
    rfl
  | succ n ih =>
    intro l hl
    cases l with
    | nil =>
      rw [chunkList_nil]
      rfl
    | cons x xs =>
      rw [chunkList_cons k hk]
      simp only [List.flatten_cons]
      rw [ih ((x :: xs).drop k)
        (by simp only [List.length_drop, List.length_cons] at hl ⊢; omega)]
      exact List.take_append_drop k (x :: xs)

lemma chunkList_flatten (k : Nat) (hk : k ≠ 0) (l : List α) :
    (chunkList k l).flatten = l :=
  chunkList_join_aux k hk l.length l (Nat.le_refl _)

lemma chunkList_mem_aux (k : Nat) (hk : k ≠ 0) :
    ∀ (n : Nat) (l : List α), l.length ≤ n →
      ∀ p ∈ chunkList k l, 1 ≤ p.length ∧ p.length ≤ k := by
  intro n
  induction n with
  | zero =>
    intro l hl p hp
    have hnil : l = [] := List.length_eq_zero.mp (Nat.le_zero.mp hl)
    subst hnil
    simp [chunkList] at hp
  | succ n ih =>
    intro l hl p hp
    cases l with
    | nil => simp [chunkList] at hp
    | cons x xs =>
      rw [chunkList_cons k hk] at hp
      rcases List.mem_cons.mp hp with h | h
      · subst h
        simp only [List.length_take, List.length_cons]
        omega
      · exact ih ((x :: xs).drop k)
          (by simp only [List.length_drop, List.length_cons] at hl ⊢; omega) p h

lemma chunkList_mem (k : Nat) (hk : k ≠ 0) (l : List α) :
    ∀ p ∈ chunkList k l, 1 ≤ p.length ∧ p.length ≤ k :=
  chunkList_mem_aux k hk l.length l (Nat.le_refl _)

lemma chunkList_getD_aux (k : Nat) (hk : k ≠ 0) :
    ∀ (n : Nat) (l : List α) (i : Nat), l.length ≤ n →
      i + 1 < (chunkList k l).length → ((chunkList k l).getD i []).length = k := by
  intro n
  induction n with
  | zero =>
    intro l i hl hi
    have hnil : l = [] := List.length_eq_zero.mp (Nat.le_zero.mp hl)
    subst hnil
    simp [chunkList] at hi
  | succ n ih =>
    intro l i hl hi
    cases l with
    | nil => simp [chunkList] at hi
    | cons x xs =>
      rw [chunkList_cons k hk] at hi ⊢
      cases i with
      | zero =>
        simp only [List.getD_cons_zero, List.length_take, List.length_cons]
        simp only [List.length_cons] at hi
        by_cases hlen : (x :: xs).length ≤ k
        · have hdrop : (x :: xs).drop k = [] := by
            have hz : ((x :: xs).drop k).length = 0 := by
              simp only [List.length_drop, List.length_cons]
              simp only [List.length_cons] at hlen
              omega
            exact List.length_eq_zero.mp hz
          rw [hdrop, chunkList_nil] at hi
          simp at hi
        · simp only [List.length_cons] at hlen
          omega
      | succ j =>
        simp only [List.getD_cons_succ]
        refine ih ((x :: xs).drop k) j ?_ ?_
        · simp only [List.length_drop, List.length_cons] at hl ⊢
          omega
        · simp only [List.length_cons] at hi
          omega

lemma chunkList_getD (k : Nat) (hk : k ≠ 0) (l : List α) (i : Nat)
    (hi : i + 1 < (chunkList k l).length) :
    ((chunkList k l).getD i []).length = k :=
  chunkList_getD_aux k hk l.length l i (Nat.le_refl _) hi

lemma cumDays_succ (y m : Nat) :
    cumDays y (m + 1) = cumDays y m + daysInMonth y (m + 1) := rfl

lemma cumDays_mono (y : Nat) {m m' : Nat} (h : m ≤ m') :
    cumDays y m ≤ cumDays y m' := by
  induction h with
  | refl => exact Nat.le_refl _
  | step _ ih => exact Nat.le_trans ih (Nat.le_add_right _ _)

lemma daysInMonth_congr {y y' : Nat} (h : isLeap y = isLeap y') (m : Nat) :
    daysInMonth y m = daysInMonth y' m := by
  unfold daysInMonth
  rw [h]

lemma cumDays_congr {y y' : Nat} (h : isLeap y = isLeap y') : ∀ m,
    cumDays y m = cumDays y' m := by
  intro m
  induction m with
  | zero => rfl
  | succ m ih => rw [cumDays_succ, cumDays_succ, ih, daysInMonth_congr h]

lemma cumDays_twelve (y : Nat) : cumDays y 12 = daysInYear y := by
  rcases Bool.eq_false_or_eq_true (isLeap y) with h | h
  · rw [cumDays_congr (show isLeap y = isLeap 4 by rw [h]; decide) 12]
    unfold daysInYear
    rw [h]
    decide
  · rw [cumDays_congr (show isLeap y = isLeap 1 by rw [h]; decide) 12]
    unfold daysInYear
    rw [h]
    decide

lemma daysUpToYear_succ (y : Nat) :
    daysUpToYear (y + 1) = daysUpToYear y + daysInYear (y + 1) := rfl

lemma daysUpToYear_mono {y y' : Nat} (h : y ≤ y') :
    daysUpToYear y ≤ daysUpToYear y' := by
  induction h with
  | refl => exact Nat.le_refl _
  | step _ ih => exact Nat.le_trans ih (Nat.le_add_right _ _)

lemma cumDays_day_le (y m d : Nat) (h : isValidDate y m d) :
    cumDays y (m - 1) + d ≤ daysInYear y := by
  obtain ⟨_, _, hm1, hm12, _, hd⟩ := h
  obtain ⟨m', rfl⟩ : ∃ m', m = m' + 1 := ⟨m - 1, by omega⟩
  have h1 : cumDays y (m' + 1) = cumDays y m' + daysInMonth y (m' + 1) :=
    cumDays_succ y m'
  have h2 : cumDays y (m' + 1) ≤ cumDays y 12 := cumDays_mono y (by omega)
  have h3 := cumDays_twelve y
  simp only [Nat.add_sub_cancel]
  omega

lemma toOrdinal_expand (a : Date) :
    toOrdinal a = daysUpToYear (a.y - 1) + cumDays a.y (a.m - 1) + a.d := rfl

lemma toOrdinal_le_yearEnd (y m d : Nat) (h : isValidDate y m d) :
    daysUpToYear (y - 1) + cumDays y (m - 1) + d ≤ daysUpToYear y := by
  have hy1 : 1 ≤ y := h.1
  obtain ⟨y', rfl⟩ : ∃ y', y = y' + 1 := ⟨y - 1, by omega⟩
  have h1 := cumDays_day_le (y' + 1) m d h
  have h2 := daysUpToYear_succ y'
  simp only [Nat.add_sub_cancel]
  omega

lemma toOrdinal_lt_of_dateLt {a b : Date} (ha : isValidDate a.y a.m a.d)
    (hb : isValidDate b.y b.m b.d) (hab : dateLt a b) :
    toOrdinal a < toOrdinal b := by
  have ea := toOrdinal_expand a
  have eb := toOrdinal_expand b
  have hbd1 : 1 ≤ b.d := hb.2.2.2.2.1
  rcases hab with hy | ⟨hy, hm | ⟨hm, hd⟩⟩
  · have h1 := toOrdinal_le_yearEnd a.y a.m a.d ha
    have h2 : daysUpToYear a.y ≤ daysUpToYear (b.y - 1) :=
      daysUpToYear_mono (by omega)
    omega
  · have ham1 : 1 ≤ a.m := ha.2.2.1
    obtain ⟨m', hm'⟩ : ∃ m', a.m = m' + 1 := ⟨a.m - 1, by omega⟩
    have had : a.d ≤ daysInMonth a.y a.m := ha.2.2.2.2.2
    have h1 : cumDays a.y (m' + 1) = cumDays a.y m' + daysInMonth a.y (m' + 1) :=
      cumDays_succ a.y m'
    have h2 : cumDays a.y (a.m) ≤ cumDays a.y (b.m - 1) := cumDays_mono a.y (by omega)
    rw [hm'] at had h2
    rw [← hy] at eb
    have hm'' : a.m - 1 = m' := by omega
    rw [hm''] at ea
    omega
  · rw [hy] at ea
    rw [hm] at ea
    omega

lemma toOrdinal_le_of_dateLe {a b : Date} (ha : isValidDate a.y a.m a.d)
    (hb : isValidDate b.y b.m b.d) (hab : dateLe a b) :
    toOrdinal a ≤ toOrdinal b := by
  rcases hab with h | h
  · exact Nat.le_of_lt (toOrdinal_lt_of_dateLt ha hb h)
  · rw [h]

lemma dateLt_or (a b : Date) : dateLt a b ∨ a = b ∨ dateLt b a := by
  obtain ⟨ay, am, ad⟩ := a
  obtain ⟨by', bm, bd⟩ := b
  simp only [dateLt, Date.mk.injEq]
  omega

lemma dateLt_irrefl (a : Date) : ¬ dateLt a a := by
  obtain ⟨ay, am, ad⟩ := a
  simp only [dateLt]
  omega

lemma dateLt_asymm {a b : Date} (h1 : dateLt a b) (h2 : dateLe b a) : False := by
  rcases h2 with h2 | h2
  · obtain ⟨ay, am, ad⟩ := a
    obtain ⟨by', bm, bd⟩ := b
    simp only [dateLt] at h1 h2
    omega
  · rw [h2] at h1
    exact dateLt_irrefl _ h1

lemma dateLe_year {a b : Date} (h : dateLe a b) : a.y ≤ b.y := by
  rcases h with h | h
  · rcases h with h | ⟨h, _⟩
    · exact Nat.le_of_lt h
    · exact Nat.le_of_eq h
  · rw [h]

lemma date_eq_of_parts {e : Date} {y m d : Nat} (hy : e.y = y) (hm : e.m = m)
    (hd : e.d = d) : e = ⟨y, m, d⟩ := by
  obtain ⟨a, b, c⟩ := e
  simp_all

lemma days_to_birthday_of_ok {today : Date} {bm bd : Nat} {n : Int}
    (h : days_to_birthday_of today bm bd = Except.ok n) :
    isValidDate today.y bm bd ∧
      ((¬ dateLt ⟨today.y, bm, bd⟩ today ∧
          n = (toOrdinal ⟨today.y, bm, bd⟩ : Int) - (toOrdinal today : Int)) ∨
        (dateLt ⟨today.y, bm, bd⟩ today ∧ isValidDate (today.y + 1) bm bd ∧
          n = (toOrdinal ⟨today.y + 1, bm, bd⟩ : Int) - (toOrdinal today : Int))) := by
  unfold days_to_birthday_of Date.build at h
  by_cases h1 : isValidDate today.y bm bd
  · simp only [if_pos h1] at h
    by_cases h2 : dateLt ⟨today.y, bm, bd⟩ today
    · simp only [if_pos h2] at h
      by_cases h3 : isValidDate (today.y + 1) bm bd
      · simp only [if_pos h3] at h
        simp only [Except.ok.injEq] at h
        exact ⟨h1, Or.inr ⟨h2, h3, h.symm⟩⟩
      · simp only [if_neg h3] at h
        cases h
    · simp only [if_neg h2] at h
      simp only [Except.ok.injEq] at h
      exact ⟨h1, Or.inl ⟨h2, h.symm⟩⟩
  · simp only [if_neg h1] at h
    cases h

lemma validate_phone_iff (s : String) :
    validate_phone s = true ↔ (s.length = 10 ∧ s.data.all pyIsDigitChar = true) := by
  unfold validate_phone pyIsDigit
  constructor
  · intro h
    simp only [Bool.and_eq_true, beq_iff_eq] at h
    exact ⟨h.1, h.2.2⟩
  · intro h
    obtain ⟨h1, h2⟩ := h
    simp only [Bool.and_eq_true, beq_iff_eq]
    refine ⟨h1, ?_, h2⟩
    have hlen : s.data.length = 10 := h1
    cases hd : s.data with
    | nil => rw [hd] at hlen; cases hlen
    | cons c cs => simp [hd]

/-- Claim C1, counterexample: on the record with the single phone
`0123456789`, `edit_phone("0123456789", "123")` raises the phone
`ValueError` — but the phone list afterwards is empty, not the prior
list: the old phone is no longer present, contradicting the claim that a
rejected `editPhone` leaves the phone list exactly as it was. -/
theorem c1_counterexample :
    (Record.edit_phone
        { name := "Ann", phones := ["0123456789"], birthday := PyVal.none }
        "0123456789" "123").1
      = Except.error (PyErr.valueError "Phone number must contain exactly 10 digits.")
    ∧ (Record.edit_phone
        { name := "Ann", phones := ["0123456789"], birthday := PyVal.none }
        "0123456789" "123").2.phones = [] := by
  decide

/-- Claim C1, amended: for every record `r`, every `oldRaw` matching at
least one phone of `r` and every invalid `newRaw`, `edit_phone` fails
with the phone-validation `ValueError`, and the resulting phone list is
the prior list with all phones equal to `oldRaw` removed — in
particular the old phone is no longer present (the mutation is partial:
removal happens before the failed add). -/
theorem c1_edit_phone_partial_mutation (r : Record) (oldRaw newRaw : String)
    (hfound : (r.find_phone oldRaw).isSome = true)
    (hinvalid : validate_phone newRaw = false) :
    (r.edit_phone oldRaw newRaw).1
      = Except.error (PyErr.valueError "Phone number must contain exactly 10 digits.")
    ∧ (r.edit_phone oldRaw newRaw).2 = r.remove_phone oldRaw
    ∧ oldRaw ∉ (r.edit_phone oldRaw newRaw).2.phones := by
  have hnone : (r.find_phone oldRaw).isNone = false := by
    cases hfp : r.find_phone oldRaw
    · rw [hfp] at hfound
      cases hfound
    · rfl
  have hedit : r.edit_phone oldRaw newRaw
      = (Except.error (PyErr.valueError "Phone number must contain exactly 10 digits."),
          r.remove_phone oldRaw) := by
    unfold Record.edit_phone Record.add_phone Phone.init
    rw [hnone, hinvalid]
    rfl
  refine ⟨by rw [hedit], by rw [hedit], ?_⟩
  rw [hedit]
  unfold Record.remove_phone
  simp

/-- Claim C1, witness for the amended theorem at a concrete input. -/
theorem c1_witness :
    (Record.find_phone
        { name := "Ann", phones := ["0123456789"], birthday := PyVal.none }
        "0123456789").isSome = true
    ∧ validate_phone "123" = false
    ∧ ((Record.edit_phone
          { name := "Ann", phones := ["0123456789"], birthday := PyVal.none }
          "0123456789" "123").1
        = Except.error (PyErr.valueError "Phone number must contain exactly 10 digits.")
      ∧ (Record.edit_phone
          { name := "Ann", phones := ["0123456789"], birthday := PyVal.none }
          "0123456789" "123").2
        = Record.remove_phone
            { name := "Ann", phones := ["0123456789"], birthday := PyVal.none }
            "0123456789"
      ∧ "0123456789" ∉ (Record.edit_phone
          { name := "Ann", phones := ["0123456789"], birthday := PyVal.none }
          "0123456789" "123").2.phones) :=
  ⟨by decide, by decide,
    c1_edit_phone_partial_mutation
      { name := "Ann", phones := ["0123456789"], birthday := PyVal.none }
      "0123456789" "123" (by decide) (by decide)⟩

/-- Claim C2: evaluation of the `Phone.value` setter at the failing input.
Assigning the valid 10-digit string `9876543210` to a phone currently
holding `0123456789` does not replace the stored value: the assignment
raises `TypeError("'str' object is not callable")` (because
`super().value(new_value)` calls the getter's returned string) and the
stored value stays `0123456789`.  Assigning an invalid string raises the
validation `ValueError`, also leaving the value unchanged.  The setter
can therefore never succeed, contradicting the claim that a valid
assignment replaces the stored value. -/
theorem c2_setter_bug :
    validate_phone "9876543210" = true
    ∧ Phone.setValue "0123456789" "9876543210"
        = (Except.error (PyErr.typeError "'str' object is not callable"),
            "0123456789")
    ∧ Phone.setValue "0123456789" "12"
        = (Except.error (PyErr.valueError "Phone number must contain exactly 10 digits."),
            "0123456789") := by
  decide

/-- Claim C3, counterexample: a record whose name and phone both match the
query is returned twice by `search`, contradicting the claim that each
matching record appears at most once. -/
theorem c3_counterexample :
    AddressBook.search
        { filename := "book",
          data := [("123",
            { name := "123", phones := ["1234567890"], birthday := PyVal.none })] }
        "123"
      = [{ name := "123", phones := ["1234567890"], birthday := PyVal.none },
          { name := "123", phones := ["1234567890"], birthday := PyVal.none }] := by
  decide

/-- Claim C3, amended: `search` returns, in collection order, for each
record a copy when its name matches followed by a copy when one of its
phones matches; a record matching both ways therefore appears twice
(there is no deduplication), and a record matching one way appears
once. -/
theorem c3_search_appends_per_match (b : AddressBook) (query : String) :
    AddressBook.search b query
      = (b.data.map Prod.snd).flatMap (fun r =>
          (if nameMatches query r then [r] else [])
            ++ (if phoneMatches query r then [r] else [])) := by
  unfold AddressBook.search
  generalize b.data.map Prod.snd = l
  induction l with
  | nil => rfl
  | cons r l ih =>
    rw [List.foldl_cons, foldl_searchStep_acc query l (searchStep query [] r), ih,
      List.flatMap_cons]
    congr 1
    unfold searchStep
    by_cases h1 : nameMatches query r <;> by_cases h2 : phoneMatches query r <;>
      simp [h1, h2]

/-- Claim C4, counterexample: `"2000-01-02"` is the `YYYY-MM-DD` rendering
of the valid calendar date 2000-01-02, yet constructing a `Birthday`
from that string raises `ValueError` — the validator accepts only
`None` or `datetime` objects and never parses strings, contradicting the
claim that construction from the rendered string succeeds. -/
theorem c4_counterexample :
    pyStr (PyVal.pydate 2000 1 2) = "2000-01-02"
    ∧ Birthday.init (PyVal.str "2000-01-02")
        = Except.error (PyErr.valueError "Birthday must be a datetime object.") := by
  decide

/-- Claim C4, amended: constructing a `Birthday` from any string fails
with `ValueError("Birthday must be a datetime object.")` regardless of
format; construction succeeds exactly for `None` and for `datetime`
values, and a `datetime` value is stored unchanged, so reading it back
yields the same (year, month, day). -/
theorem c4_birthday_accepts_only_datetime :
    (∀ s : String, Birthday.init (PyVal.str s)
        = Except.error (PyErr.valueError "Birthday must be a datetime object."))
    ∧ (∀ y m d : Nat, Birthday.init (PyVal.pydatetime y m d)
        = Except.ok (PyVal.pydatetime y m d))
    ∧ Birthday.init PyVal.none = Except.ok PyVal.none :=
  ⟨fun _ => rfl, fun _ _ _ => rfl, rfl⟩

/-- Claim C5 (spec-modelled): for every address book and positive
`pageSize`, `pagedIterate` yields pages that flatten to the whole record
sequence in collection order, every page is nonempty with length at most
`pageSize`, every page other than the last has length exactly
`pageSize`; a non-positive `pageSize` fails with `InvalidArgument`, and
the no-argument form uses the default page size 10. -/
theorem c5_pagedIterate_pages (b : AddressBook) (k : Int) :
    (0 < k →
      ∃ pages, pagedIterate b k = Except.ok pages
        ∧ pages.flatten = b.data.map Prod.snd
        ∧ (∀ p ∈ pages, 1 ≤ p.length ∧ p.length ≤ k.toNat)
        ∧ (∀ i : Nat, i + 1 < pages.length → (pages.getD i []).length = k.toNat))
    ∧ (k ≤ 0 → pagedIterate b k
        = Except.error (PyErr.invalidArgument "page size must be a positive integer"))
    ∧ pagedIterateDefault b = pagedIterate b 10 := by
  refine ⟨?_, ?_, rfl⟩
  · intro hk
    have hk0 : k.toNat ≠ 0 := by omega
    refine ⟨chunkList k.toNat (b.data.map Prod.snd), ?_, ?_, ?_, ?_⟩
    · unfold pagedIterate
      rw [if_neg (by omega)]
    · exact chunkList_flatten _ hk0 _
    · exact chunkList_mem _ hk0 _
    · exact fun i hi => chunkList_getD _ hk0 _ i hi
  · intro hk
    unfold pagedIterate
    rw [if_pos hk]

/-- Demo book with three records, used for concrete witnesses (the spec's
`pagedIterate(2)` example shape). -/
def demoBook : AddressBook :=
  { filename := "book",
    data := [("a", { name := "a", phones := [], birthday := PyVal.none }),
      ("b", { name := "b", phones := [], birthday := PyVal.none }),
      ("c", { name := "c", phones := [], birthday := PyVal.none })] }

/-- Claim C5, witness: the theorem applied to a 3-record book with page
size 2 (the spec's own example, which yields pages of lengths 2 and 1). -/
theorem c5_witness :
    0 < (2 : Int)
    ∧ (∃ pages, pagedIterate demoBook 2 = Except.ok pages
        ∧ pages.flatten = demoBook.data.map Prod.snd
        ∧ (∀ p ∈ pages, 1 ≤ p.length ∧ p.length ≤ (2 : Int).toNat)
        ∧ (∀ i : Nat, i + 1 < pages.length
            → (pages.getD i []).length = (2 : Int).toNat)) :=
  ⟨by decide, (c5_pagedIterate_pages demoBook 2).1 (by decide)⟩

/-- Claim C6: `save` followed by constructing a fresh `AddressBook` on the
same path reproduces the record mapping exactly — the same names in the
same order, and for each name the same record (hence the same phone
sequence and the same birthday).  Pickling is modelled as lossless,
which it is for a dict of these records. -/
theorem c6_save_load_roundtrip (fs : FS) (b : AddressBook) :
    (AddressBook.init (AddressBook.save fs b) b.filename).data = b.data
    ∧ (AddressBook.init (AddressBook.save fs b) b.filename).data.map Prod.fst
        = b.data.map Prod.fst
    ∧ ∀ name : String,
        (AddressBook.init (AddressBook.save fs b) b.filename).data.lookup name
          = b.data.lookup name := by
  have h : (AddressBook.init (AddressBook.save fs b) b.filename).data = b.data := by
    unfold AddressBook.init AddressBook.load AddressBook.save
    simp
  exact ⟨h, by rw [h], fun name => by rw [h]⟩

/-- Claim C7, counterexample: the string of ten Arabic-Indic digits
U+0660–U+0669 contains no character in the ASCII range `0`–`9`, yet
`Phone` construction accepts it, because Python's `str.isdigit` is
satisfied by non-ASCII Unicode digits — contradicting the claim that
construction succeeds only when every character is an ASCII digit. -/
theorem c7_counterexample :
    Phone.init "٠١٢٣٤٥٦٧٨٩" = Except.ok "٠١٢٣٤٥٦٧٨٩"
    ∧ "٠١٢٣٤٥٦٧٨٩".length = 10
    ∧ "٠١٢٣٤٥٦٧٨٩".data.all (fun c => decide ('0' ≤ c) && decide (c ≤ '9')) = false := by
  decide

/-- Claim C7, amended: `Phone` construction succeeds exactly when the
string has length 10 and every character is a digit in the sense of
Python's `str.isdigit` — a predicate that also accepts non-ASCII decimal
digits (for ASCII-only strings it coincides with `0`–`9`); on success
the stored value is the input unchanged, otherwise construction fails
with the phone `ValueError`. -/
theorem c7_phone_validation (s : String) :
    (Phone.init s = Except.ok s ↔ (s.length = 10 ∧ s.data.all pyIsDigitChar = true))
    ∧ (¬(s.length = 10 ∧ s.data.all pyIsDigitChar = true) →
        Phone.init s
          = Except.error (PyErr.valueError "Phone number must contain exactly 10 digits.")) := by
  have hv := validate_phone_iff s
  constructor
  · constructor
    · intro h
      apply hv.mp
      cases hb : validate_phone s
      · unfold Phone.init at h
        rw [hb] at h
        cases h
      · rfl
    · intro h
      unfold Phone.init
      rw [hv.mpr h]
      rfl
  · intro h
    have hb : validate_phone s = false := by
      cases hb : validate_phone s
      · rfl
      · exact absurd (hv.mp hb) h
    unfold Phone.init
    rw [hb]
    rfl

/-- Claim C7, witness: the amended theorem applied at the valid ASCII
phone string. -/
theorem c7_witness :
    Phone.init "0123456789" = Except.ok "0123456789" :=
  (c7_phone_validation "0123456789").1.mpr (by decide)

/-- Claim C8, counterexample: for a record with birthday Feb 29 (of leap
year 1996) and today = 2023-03-01, the next occurrence of (2, 29) is the
valid date 2024-02-29, yet `days_to_birthday` does not return a day
count: constructing `datetime(2023, 2, 29)` raises `ValueError`, so the
computation fails instead of returning the non-negative distance the
claim requires. -/
theorem c8_counterexample :
    Record.days_to_birthday
        { name := "Ann", phones := [], birthday := PyVal.pydatetime 1996 2 29 }
        ⟨2023, 3, 1⟩
      = Except.error (PyErr.valueError "day is out of range for month")
    ∧ isValidDate 2024 2 29 ∧ isValidDate 2023 3 1 := by
  decide

/-- Claim C8, amended: for every record with a set birthday (month `bm`,
day `bd`) and every valid `today`, whenever `days_to_birthday` returns a
day count `n` (which it does unless the occurrence of (`bm`, `bd`) it
constructs is an invalid date, e.g. a Feb-29 birthday with a non-leap
target year, where it raises `ValueError` instead), `n` is non-negative,
`n = 0` when today is (`bm`, `bd`), and `n` is the exact ordinal
distance from `today` to the earliest valid date on or after `today`
with month `bm` and day `bd`. -/
theorem c8_days_to_birthday_next_occurrence (r : Record) (today : Date)
    (yb bm bd : Nat) (n : Int)
    (hb : r.birthday = PyVal.pydatetime yb bm bd)
    (htoday : isValidDate today.y today.m today.d)
    (hok : Record.days_to_birthday r today = Except.ok (some n)) :
    0 ≤ n ∧ (today.m = bm ∧ today.d = bd → n = 0) ∧
    ∃ nb : Date, isValidDate nb.y nb.m nb.d ∧ nb.m = bm ∧ nb.d = bd ∧
      dateLe today nb ∧ n = (toOrdinal nb : Int) - (toOrdinal today : Int) ∧
      ∀ e : Date, isValidDate e.y e.m e.d → e.m = bm → e.d = bd →
        dateLe today e → toOrdinal nb ≤ toOrdinal e := by
  have hcore : days_to_birthday_of today bm bd = Except.ok n := by
    unfold Record.days_to_birthday at hok
    rw [hb] at hok
    have hok2 : (days_to_birthday_of today bm bd).map some = Except.ok (some n) := hok
    cases hc : days_to_birthday_of today bm bd with
    | error e =>
      rw [hc] at hok2
      simp [Except.map] at hok2
    | ok v =>
      rw [hc] at hok2
      simp [Except.map] at hok2
      rw [hok2]
  obtain ⟨hv1, hcase⟩ := days_to_birthday_of_ok hcore
  rcases hcase with ⟨hnlt, hn⟩ | ⟨hlt, hv2, hn⟩
  · -- this year's occurrence is on or after today
    have hle : dateLe today ⟨today.y, bm, bd⟩ := by
      rcases dateLt_or today ⟨today.y, bm, bd⟩ with h | h | h
      · exact Or.inl h
      · exact Or.inr h
      · exact absurd h hnlt
    have hord : toOrdinal today ≤ toOrdinal (⟨today.y, bm, bd⟩ : Date) :=
      toOrdinal_le_of_dateLe htoday hv1 hle
    refine ⟨by omega, ?_, ⟨today.y, bm, bd⟩, hv1, rfl, rfl, hle, hn, ?_⟩
    · intro hmd
      have heq : (⟨today.y, bm, bd⟩ : Date) = today := by
        rw [← hmd.1, ← hmd.2]
      rw [heq] at hn
      omega
    · intro e he hem hed hte
      have hey : today.y ≤ e.y := dateLe_year hte
      rcases Nat.eq_or_lt_of_le hey with heq | hlt2
      · have heq2 : e = ⟨today.y, bm, bd⟩ :=
          date_eq_of_parts (show e.y = today.y from heq.symm) hem hed
        rw [heq2]
      · exact Nat.le_of_lt (toOrdinal_lt_of_dateLt hv1 he (Or.inl hlt2))
  · -- this year's occurrence already passed; next year's is used
    have hyl : today.y < (⟨today.y + 1, bm, bd⟩ : Date).y := Nat.lt_succ_self today.y
    have hle : dateLe today ⟨today.y + 1, bm, bd⟩ := Or.inl (Or.inl hyl)
    have hord : toOrdinal today < toOrdinal (⟨today.y + 1, bm, bd⟩ : Date) :=
      toOrdinal_lt_of_dateLt htoday hv2 (Or.inl hyl)
    refine ⟨by omega, ?_, ⟨today.y + 1, bm, bd⟩, hv2, rfl, rfl, hle, hn, ?_⟩
    · intro hmd
      exfalso
      have heq : (⟨today.y, bm, bd⟩ : Date) = today := by
        rw [← hmd.1, ← hmd.2]
      rw [heq] at hlt
      exact dateLt_irrefl today hlt
    · intro e he hem hed hte
      have hey : today.y ≤ e.y := dateLe_year hte
      rcases Nat.lt_or_ge e.y (today.y + 1) with h | h
      · exfalso
        have heq : e = ⟨today.y, bm, bd⟩ := date_eq_of_parts (by omega) hem hed
        rw [heq] at hte
        exact dateLt_asymm hlt hte
      · rcases Nat.eq_or_lt_of_le h with heq | hlt3
        · have heq2 : e = ⟨today.y + 1, bm, bd⟩ :=
            date_eq_of_parts (show e.y = today.y + 1 from heq.symm) hem hed
          rw [heq2]
        · exact Nat.le_of_lt (toOrdinal_lt_of_dateLt hv2 he (Or.inl hlt3))

/-- Claim C8, witness: the amended theorem applied at today = year 5,
June 1, with a birthday of June 15 (of year 4): the code returns 14
days. -/
theorem c8_witness :
    ({ name := "Bea", phones := [], birthday := PyVal.pydatetime 4 6 15 }
        : Record).birthday = PyVal.pydatetime 4 6 15
    ∧ isValidDate (⟨5, 6, 1⟩ : Date).y (⟨5, 6, 1⟩ : Date).m (⟨5, 6, 1⟩ : Date).d
    ∧ Record.days_to_birthday
        { name := "Bea", phones := [], birthday := PyVal.pydatetime 4 6 15 }
        ⟨5, 6, 1⟩ = Except.ok (some 14)
    ∧ (0 ≤ (14 : Int)
      ∧ ((⟨5, 6, 1⟩ : Date).m = 6 ∧ (⟨5, 6, 1⟩ : Date).d = 15 → (14 : Int) = 0)
      ∧ ∃ nb : Date, isValidDate nb.y nb.m nb.d ∧ nb.m = 6 ∧ nb.d = 15 ∧
          dateLe ⟨5, 6, 1⟩ nb
          ∧ (14 : Int) = (toOrdinal nb : Int) - (toOrdinal ⟨5, 6, 1⟩ : Int)
          ∧ ∀ e : Date, isValidDate e.y e.m e.d → e.m = 6 → e.d = 15 →
              dateLe ⟨5, 6, 1⟩ e → toOrdinal nb ≤ toOrdinal e) :=
  ⟨rfl, by decide, by decide,
    c8_days_to_birthday_next_occurrence
      { name := "Bea", phones := [], birthday := PyVal.pydatetime 4 6 15 }
      ⟨5, 6, 1⟩ 4 6 15 14 rfl (by decide) (by decide)⟩

/-- Claim C9, counterexample: on a record with one phone and no birthday,
the rendering uses `", birthday: "` (comma-space), not the claimed
`"; birthday: "`, and renders the absent birthday as `None`, not
`unknown` — so the rendered string differs from the format the claim
requires. -/
theorem c9_counterexample :
    Record.toStr { name := "Ann", phones := ["0123456789"], birthday := PyVal.none }
      = "Contact name: Ann, phones: 0123456789, birthday: None"
    ∧ Record.toStr { name := "Ann", phones := ["0123456789"], birthday := PyVal.none }
      ≠ "Contact name: Ann, phones: 0123456789; birthday: unknown" := by
  decide

/-- Claim C9, amended: the rendering is exactly
`"Contact name: <name>, phones: <p1>; <p2>; ..., birthday: <value>"` —
the phones are joined by `"; "`, but the birthday field is preceded by
`", "` (not `"; "`), and an absent birthday renders as `"None"` (not
`"unknown"`). -/
theorem c9_render_format (r : Record) :
    Record.toStr r
      = "Contact name: " ++ r.name ++ ", phones: " ++ joinSemi r.phones
        ++ ", birthday: " ++ pyStr r.birthday
    ∧ pyStr PyVal.none = "None" := by
  refine ⟨?_, rfl⟩
  unfold Record.toStr
  rw [pyJoin_eq_joinSemi]

/-- Claim C10: entering the scoped session (`__enter__`) reloads the
snapshot from the book's storage path and replaces the whole in-memory
mapping with it: the result equals a freshly constructed book on the
same path, and any change to the in-memory data made before entering is
discarded — entering from any modified data yields the same book. -/
theorem c10_enter_reloads (fs : FS) (b : AddressBook) :
    AddressBook.enter fs b = AddressBook.init fs b.filename
    ∧ ∀ d' : List (String × Record),
        AddressBook.enter fs { b with data := d' } = AddressBook.enter fs b := by
  exact ⟨rfl, fun d' => rfl⟩
